import Mathlib

/-!
Shallow embedding of `src/utils/projectionLogic.js`: a year-by-year projection
engine for a portfolio of fixed-term deposits (CDs) and a liquid account
(HYSA), with rate scenarios, taxes, withdrawals and shortfall coverage.

Modelling conventions:
* JS numbers are modelled as exact rationals (`ℚ`); the 0.01 monetary
  tolerance of the source appears literally as `1/100`.
* JS `Date` values are modelled by their calendar year and zero-indexed
  month, the only two components the source ever reads.
* A date-string input that is missing or unparseable is modelled as `none`
  (the source's `parseDateString` returns `null` in both cases).
* `undefined`/`null`/NaN inputs are modelled with `Option`.
* The module-level mutable `reinvestmentCounter` of the source is threaded
  explicitly: `calculateProjections` receives the counter's initial value.
* `console.warn`/`console.error` calls are side effects with no influence on
  the returned value and are not modelled.
-/

namespace ProjectionLogic

/-- Model of a JS `Date` as read by the projection code: only the calendar
year (`getFullYear`) and the zero-indexed month (`getMonth`) are ever used. -/
structure JDate where
  year : Int
  month : Nat
deriving DecidableEq

/-- Model of `date-fns` `addMonths` restricted to the observable year/month pair
(day-of-month clamping cannot influence the result). -/
def addMonths (d : JDate) (m : Nat) : JDate :=
  { year := d.year + (((d.month + m) / 12 : Nat) : Int), month := (d.month + m) % 12 }

/-- The function `addMonths` applied to a rational month count: `date-fns` truncates the
amount to an integer; the source only calls it with validated positive
durations, for which truncation and floor agree. -/
def addMonthsQ (d : JDate) (q : ℚ) : JDate :=
  addMonths d q.floor.toNat

/-- JS `Math.max` on (rational-modelled) numbers. -/
def jsMax (a b : ℚ) : ℚ := if a ≤ b then b else a

/-- JS `Math.min` on (rational-modelled) numbers. -/
def jsMin (a b : ℚ) : ℚ := if a ≤ b then a else b

/-- JS `Math.max` on integers (year bookkeeping). -/
def jsMaxI (a b : Int) : Int := if a ≤ b then b else a

/-- JS `Math.min` on integers (year bookkeeping). -/
def jsMinI (a b : Int) : Int := if a ≤ b then a else b

/-- JS `Math.pow` as exercised by the projection code, which raises `1 + apy`
to `termMonths / 12`.  For exponents that are non-negative whole numbers
(durations that are whole multiples of 12 months — the case for every
concrete input used in this development) this is the exact integer power;
other exponents are not exercised by any theorem below and are mapped to 0. -/
def mathPow (b e : ℚ) : ℚ := if 0 ≤ e.num ∧ e.den = 1 then b ^ e.num.toNat else 0

/-- One entry of the base rate table `interestRates`: `apy = none` models a
missing or non-numeric `apy`, `duration = none` a missing or non-numeric
`duration` (`null` marks the HYSA term in the source data). -/
structure RateInfo where
  apy : Option ℚ
  duration : Option ℚ
deriving DecidableEq

/-- Lookup `interestRates[termKey]` on the rate table modelled as an association
list (a missing key yields `none`, as JS property access yields a falsy
`undefined`). -/
def lookupRate (rates : List (String × RateInfo)) (termKey : String) : Option RateInfo :=
  (rates.find? (fun p => p.1 == termKey)).map (fun p => p.2)

/-- The scenario-timing fields of a `RATE_SCENARIOS` entry (the `label` and
`description` strings never influence the computation and are omitted). -/
structure ScenarioConfig where
  targetYearStartEffect : Int
  targetYearFullEffect : Int
  floor : ℚ
  adjustments : List (String × ℚ)
deriving DecidableEq

/-- The `RATE_SCENARIOS.ratesFallModerately` entry. -/
def fallModeratelyConfig : ScenarioConfig :=
  { targetYearStartEffect := 2
    targetYearFullEffect := 3
    floor := 1/4
    adjustments := [("HYSA", -1/2), ("6m", -3/4), ("9m", -3/4), ("12m", -3/4),
      ("18m", -3/4), ("24m", -3/4), ("30m", -3/4), ("36m", -3/4), ("48m", -3/4),
      ("60m", -3/4)] }

/-- The `RATE_SCENARIOS.ratesFallSignificantly` entry. -/
def fallSignificantlyConfig : ScenarioConfig :=
  { targetYearStartEffect := 1
    targetYearFullEffect := 2
    floor := 1/10
    adjustments := [("HYSA", -3/2), ("6m", -2), ("9m", -2), ("12m", -2),
      ("18m", -2), ("24m", -2), ("30m", -2), ("36m", -2), ("48m", -2),
      ("60m", -2)] }

/-- Lookup `RATE_SCENARIOS[scenarioKey]` viewed through the timing fields.  The
baseline entry `ratesStayHigh` carries none of these fields; `getRateForYear`
short-circuits the baseline key before this lookup, so mapping it (like every
unknown key) to `none` matches the source's behaviour. -/
def rateScenarioConfig (scenarioKey : String) : Option ScenarioConfig :=
  if scenarioKey = "ratesFallModerately" then some fallModeratelyConfig
  else if scenarioKey = "ratesFallSignificantly" then some fallSignificantlyConfig
  else none

/-- Association-list lookup inside a scenario's `adjustments` object. -/
def adjLookup (adjs : List (String × ℚ)) (termKey : String) : Option ℚ :=
  (adjs.find? (fun p => p.1 == termKey)).map (fun p => p.2)

/-- The source's nullish-coalescing fallback chain
`scenarioConfig.adjustments[termKey] ?? scenarioConfig.adjustments['HYSA'] ?? 0`. -/
def scenarioAdjustment (cfg : ScenarioConfig) (termKey : String) : ℚ :=
  (adjLookup cfg.adjustments termKey).getD ((adjLookup cfg.adjustments "HYSA").getD 0)

/-- The resolver `getRateForYear(termKey, year, scenarioKey, baseRates, startYear)`: the
effective APY (in percentage points) for a term in a given year under a rate
scenario.  `scenarioKey = none` models an absent (falsy) scenario id. -/
def getRateForYear (termKey : String) (year : Int) (scenarioKey : Option String)
    (baseRates : List (String × RateInfo)) (startYear : Int) : ℚ :=
  match lookupRate baseRates termKey with
  | none => 0
  | some baseRateInfo =>
    match baseRateInfo.apy with
    | none => 0
    | some baseApy =>
      if scenarioKey = some "ratesStayHigh" ∨ scenarioKey = none then baseApy
      else
        match scenarioKey with
        | none => baseApy
        | some k =>
          match rateScenarioConfig k with
          | none => baseApy
          | some scenarioConfig =>
            let adjustment := scenarioAdjustment scenarioConfig termKey
            let targetApy := baseApy + adjustment
            let yearsElapsed := year - startYear
            let startEffectElapsed := scenarioConfig.targetYearStartEffect - 1
            let fullEffectElapsed := scenarioConfig.targetYearFullEffect - 1
            let adjustmentDuration := fullEffectElapsed - startEffectElapsed
            let currentApy :=
              if fullEffectElapsed ≤ yearsElapsed then targetApy
              else if startEffectElapsed ≤ yearsElapsed ∧ 0 < adjustmentDuration then
                baseApy + (targetApy - baseApy) *
                  (((yearsElapsed - startEffectElapsed + 1 : Int) : ℚ) /
                   ((adjustmentDuration + 1 : Int) : ℚ))
              else baseApy
            jsMax scenarioConfig.floor currentApy

/-- One raw allocation row as received from the form layer.  `amount = none`
models a missing/NaN amount (coerced to 0 by `Number(t.amount) || 0`);
`id`, `reinvestmentOption`, `reinvestmentTerm` use `none` for missing
(falsy) values. -/
structure TrancheRow where
  id : Option String
  amount : Option ℚ
  term : String
  reinvestmentOption : Option String
  reinvestmentTerm : Option String
deriving DecidableEq

/-- A validated internal deposit record (the objects built by the
`initialTranches` map and by `newCD` reinvestment).  For HYSA rows the
source's object spread leaves `termMonths` absent and the reinvestment
fields raw; neither is ever consulted for a HYSA tranche (they are filtered
out of the CD list), so they are populated with the same defaults here. -/
structure Tranche where
  id : String
  amount : ℚ
  term : String
  termMonths : ℚ
  maturityDate : Option JDate
  interestEarned : ℚ
  valueAtMaturity : ℚ
  isHYSA : Bool
  reinvestmentOption : String
  reinvestmentTerm : String
deriving DecidableEq

/-- The body of the `tranches.map` callback in `calculateProjections`:
validates one allocation row against the rate table and builds the internal
deposit record.  A `throw new Error(...)` of the source is an
`Except.error`. -/
def initTranche (parsedStart : JDate) (interestRates : List (String × RateInfo))
    (index : Nat) (t : TrancheRow) : Except String Tranche :=
  let termKey := t.term
  match lookupRate interestRates termKey with
  | none => .error ("Missing or invalid rate data for term: " ++ termKey)
  | some rateInfo =>
    match rateInfo.apy with
    | none => .error ("Missing or invalid rate data for term: " ++ termKey)
    | some apyPercent =>
      let apy := apyPercent / 100
      let trancheId := t.id.getD (termKey ++ "-" ++ toString index)
      let principal := t.amount.getD 0
      if termKey = "HYSA" then
        .ok { id := trancheId, amount := principal, term := termKey, termMonths := 0,
              maturityDate := none, interestEarned := 0, valueAtMaturity := principal,
              isHYSA := true,
              reinvestmentOption := t.reinvestmentOption.getD "cash",
              reinvestmentTerm := t.reinvestmentTerm.getD "12m" }
      else
        match rateInfo.duration with
        | none => .error ("Invalid duration for term: " ++ termKey)
        | some termMonths =>
          if termMonths ≤ 0 then .error ("Invalid duration for term: " ++ termKey)
          else
            let maturityDate := addMonthsQ parsedStart termMonths
            let termYears := termMonths / 12
            let valueAtMaturity := principal * mathPow (1 + apy) termYears
            let interestEarned := valueAtMaturity - principal
            .ok { id := trancheId, amount := principal, term := termKey,
                  termMonths := termMonths, maturityDate := some maturityDate,
                  interestEarned := interestEarned, valueAtMaturity := valueAtMaturity,
                  isHYSA := false,
                  reinvestmentOption := t.reinvestmentOption.getD "cash",
                  reinvestmentTerm := t.reinvestmentTerm.getD "12m" }

/-- The map `tranches.map(...)` with the throwing callback: the first failing row
aborts the whole map (JS exception propagation). -/
def initTranches (parsedStart : JDate) (interestRates : List (String × RateInfo)) :
    Nat → List TrancheRow → Except String (List Tranche)
  | _, [] => .ok []
  | index, t :: ts =>
    match initTranche parsedStart interestRates index t with
    | .error e => .error e
    | .ok tr =>
      match initTranches parsedStart interestRates (index + 1) ts with
      | .error e => .error e
      | .ok trs => .ok (tr :: trs)

/-- One raw withdrawal row; `date = none` models a missing or unparseable
date string, `amount = none` a missing/NaN amount. -/
structure Withdrawal where
  date : Option JDate
  amount : Option ℚ
deriving DecidableEq

/-- The years contributed to `allYears` by withdrawals with a valid date. -/
def withdrawalYears (ws : List Withdrawal) : List Int :=
  ws.filterMap (fun w => w.date.map (fun d => d.year))

/-- The years contributed to `allYears` by initial tranches with a maturity
date. -/
def maturityYears (ts : List Tranche) : List Int :=
  ts.filterMap (fun t => t.maturityDate.map (fun d => d.year))

/-- Computation of `Math.min(...allYears)`: the start year is always a member of the
`allYears` set, so the minimum is a fold of `Math.min` starting there. -/
def minYearOf (startYear : Int) (ws : List Withdrawal) (ts : List Tranche) : Int :=
  (withdrawalYears ws ++ maturityYears ts).foldl jsMinI startYear

/-- Computation of `Math.max(...allYears)`. -/
def maxKnownEventYearOf (startYear : Int) (ws : List Withdrawal) (ts : List Tranche) : Int :=
  (withdrawalYears ws ++ maturityYears ts).foldl jsMaxI startYear

/-- Computation of `Math.max(0, ...initialTranches.filter(t ⇒ not t.isHYSA).map(t ⇒ t.termMonths))`. -/
def maxInitialTermOf (ts : List Tranche) : ℚ :=
  ((ts.filter (fun t => !t.isHYSA)).map (fun t => t.termMonths)).foldl jsMax 0

/-- Computation of `maxYear = Math.max(maxKnownEventYear, startYear + Math.ceil(maxInitialTerm / 12) + 5)`. -/
def maxYearOf (startYear : Int) (ws : List Withdrawal) (ts : List Tranche) : Int :=
  jsMaxI (maxKnownEventYearOf startYear ws ts)
    (startYear + (maxInitialTermOf ts / 12).ceil + 5)

/-- The inclusive year range `minYear .. maxYear` iterated by the projection
loop. -/
def yearRangeOf (minYear maxYear : Int) : List Int :=
  (List.range (maxYear + 1 - minYear).toNat).map (fun i => minYear + (i : Int))

/-- The loop-invariant context of the yearly simulation: everything read but
never written by an iteration.  `hysaDefined` is `hysaTranches.length > 0`;
the unused `hysaRateInfo` binding and the unused `currentYearStart` date of
the source are omitted. -/
structure SimCtx where
  startYear : Int
  startMonth : Nat
  numTaxRate : ℚ
  withdrawals : List Withdrawal
  interestRates : List (String × RateInfo)
  rateScenario : Option String
  hysaDefined : Bool
deriving DecidableEq

/-- The state threaded from one projection year to the next. -/
structure SimState where
  cashBalance : ℚ
  totalInterestEarnedCumulative : ℚ
  totalTaxesPaidCumulative : ℚ
  hasShortfallOverall : Bool
  cumulativeShortfall : ℚ
  currentHysaBalance : ℚ
  activeCdTranches : List Tranche
  reinvestCounter : Nat
deriving DecidableEq

/-- The helper `generateReinvestId` with the module-level counter made explicit. -/
def generateReinvestId (originalId : String) (counter : Nat) : String :=
  originalId ++ "-reinvest-" ++ toString counter

/-- The accumulator of the per-year loop over `activeCdTranches`. -/
structure MaturityAcc where
  maturingValueTotal : ℚ
  interestFromMaturing : ℚ
  cashFromMaturing : ℚ
  hysaValueReinvested : ℚ
  newTranches : List Tranche
  remaining : List Tranche
  counter : Nat
deriving DecidableEq

/-- The body of `for (const cd of activeCdTranches)`: maturity detection and
the reinvestment election.  `shortfallIn` is the `cumulativeShortfall`
carried into the year (the source reads the pre-loop value throughout).
The source re-checks the reinvestment duration a second time after computing
the scenario APY; the two checks are character-for-character the same
condition, so the dead second check is not repeated here. -/
def matureStep (ctx : SimCtx) (shortfallIn : ℚ) (year : Int)
    (acc : MaturityAcc) (cd : Tranche) : MaturityAcc :=
  match cd.maturityDate with
  | some d =>
    if d.year = year then
      let acc := { acc with
        maturingValueTotal := acc.maturingValueTotal + cd.valueAtMaturity,
        interestFromMaturing := acc.interestFromMaturing + cd.interestEarned }
      if shortfallIn > 1/100 then
        { acc with cashFromMaturing := acc.cashFromMaturing + cd.valueAtMaturity }
      else if cd.reinvestmentOption = "hysa" then
        if ctx.hysaDefined then
          { acc with hysaValueReinvested := acc.hysaValueReinvested + cd.valueAtMaturity }
        else
          { acc with cashFromMaturing := acc.cashFromMaturing + cd.valueAtMaturity }
      else if cd.reinvestmentOption = "newCD" then
        match lookupRate ctx.interestRates cd.reinvestmentTerm with
        | none =>
          { acc with cashFromMaturing := acc.cashFromMaturing + cd.valueAtMaturity }
        | some rateInfo =>
          match rateInfo.apy, rateInfo.duration with
          | some _, some newTermMonths =>
            if newTermMonths ≤ 0 then
              { acc with cashFromMaturing := acc.cashFromMaturing + cd.valueAtMaturity }
            else
              let newApyPercent := getRateForYear cd.reinvestmentTerm year
                ctx.rateScenario ctx.interestRates ctx.startYear
              let newApy := newApyPercent / 100
              let newPrincipal := cd.valueAtMaturity
              let newMaturityDate := addMonthsQ d newTermMonths
              let newTermYears := newTermMonths / 12
              let newValueAtMaturity := newPrincipal * mathPow (1 + newApy) newTermYears
              let newInterestEarned := newValueAtMaturity - newPrincipal
              let newTranche : Tranche :=
                { id := generateReinvestId cd.id acc.counter
                  amount := newPrincipal
                  term := cd.reinvestmentTerm
                  termMonths := newTermMonths
                  maturityDate := some newMaturityDate
                  interestEarned := newInterestEarned
                  valueAtMaturity := newValueAtMaturity
                  isHYSA := false
                  reinvestmentOption := "cash"
                  reinvestmentTerm := "12m" }
              { acc with newTranches := acc.newTranches ++ [newTranche],
                         counter := acc.counter + 1 }
          | _, _ =>
            { acc with cashFromMaturing := acc.cashFromMaturing + cd.valueAtMaturity }
      else
        { acc with cashFromMaturing := acc.cashFromMaturing + cd.valueAtMaturity }
    else
      { acc with remaining := acc.remaining ++ [cd] }
  | none =>
    { acc with remaining := acc.remaining ++ [cd] }

/-- The whole `for (const cd of activeCdTranches)` loop. -/
def processMaturities (ctx : SimCtx) (shortfallIn : ℚ) (counter0 : Nat) (year : Int)
    (cds : List Tranche) : MaturityAcc :=
  cds.foldl (matureStep ctx shortfallIn year)
    { maturingValueTotal := 0, interestFromMaturing := 0, cashFromMaturing := 0,
      hysaValueReinvested := 0, newTranches := [], remaining := [], counter := counter0 }

/-- This year's HYSA interest: only when a HYSA was initially defined and the
balance carried into the year is positive; the first simulated year is
pro-rated by the months remaining in the start year. -/
def hysaInterestFor (ctx : SimCtx) (hysaBalance : ℚ) (year : Int) : ℚ :=
  if ctx.hysaDefined ∧ 0 < hysaBalance then
    let currentHysaApyPercent :=
      getRateForYear "HYSA" year ctx.rateScenario ctx.interestRates ctx.startYear
    let annualRate := currentHysaApyPercent / 100
    let interestFactor : ℚ :=
      if year = ctx.startYear then ((12 : ℚ) - (ctx.startMonth : ℚ)) / 12 else 1
    hysaBalance * annualRate * interestFactor
  else 0

/-- The sum of the amounts of withdrawals whose (valid) date falls in this
calendar year. -/
def totalWithdrawalsFor (ws : List Withdrawal) (year : Int) : ℚ :=
  (ws.filter (fun w =>
      match w.date with
      | some d => d.year == year
      | none => false)).foldl (fun sum w => sum + w.amount.getD 0) 0

/-- One emitted projection record (the object pushed onto `projection`). -/
structure YearRecord where
  year : Int
  maturingValue : ℚ
  reinvestedValue : ℚ
  yearlyInterest : ℚ
  interestFromCDs : ℚ
  interestFromHYSA : ℚ
  taxesDue : ℚ
  cashAvailableStart : ℚ
  hysaWithdrawalToCoverShortfall : ℚ
  withdrawalAmount : ℚ
  netCashFlowYear : ℚ
  endOfYearCash : ℚ
  ongoingCDInvestments : ℚ
  endOfYearHysaBalance : ℚ
  ongoingInvestmentsTotal : ℚ
  totalPortfolioValue : ℚ
  hasShortfall : Bool
  yearEndShortfallAmount : ℚ
deriving DecidableEq

/-- One iteration of the yearly projection loop: consumes the state carried
into `year` and produces the state for the next year together with the
emitted record.  The source adds `hysaInterestThisYear` to the cumulative
interest inside the guard that computes it; since the interest is 0 when the
guard fails, the unconditional addition here is the same value. -/
def processYear (ctx : SimCtx) (st : SimState) (year : Int) : SimState × YearRecord :=
  let startingCashForYear := st.cashBalance - st.cumulativeShortfall
  let m := processMaturities ctx st.cumulativeShortfall st.reinvestCounter year
    st.activeCdTranches
  let activeNext := m.remaining ++ m.newTranches
  let hysaInterestThisYear := hysaInterestFor ctx st.currentHysaBalance year
  let totalInterestCum := st.totalInterestEarnedCumulative + m.interestFromMaturing +
    hysaInterestThisYear
  let hysaBalanceAfterReinvest := st.currentHysaBalance + m.hysaValueReinvested
  let totalYearlyInterest := m.interestFromMaturing + hysaInterestThisYear
  let taxesDueThisYear := totalYearlyInterest * ctx.numTaxRate
  let totalTaxesCum := st.totalTaxesPaidCumulative + taxesDueThisYear
  let totalWithdrawalsThisYear := totalWithdrawalsFor ctx.withdrawals year
  let cashAvailableThisYear := startingCashForYear + m.cashFromMaturing +
    hysaInterestThisYear
  let netBefore := cashAvailableThisYear - totalWithdrawalsThisYear - taxesDueThisYear
  let shortfall0 := if netBefore < 0 then -netBefore else 0
  let hysaWithdrawal :=
    if 0 < shortfall0 ∧ 0 < hysaBalanceAfterReinvest then
      jsMin shortfall0 hysaBalanceAfterReinvest
    else 0
  let hysaBalanceEnd := hysaBalanceAfterReinvest - hysaWithdrawal
  let netAfter := netBefore + hysaWithdrawal
  let shortfallRemaining := shortfall0 - hysaWithdrawal
  let endOfYearCash := jsMax 0 netAfter
  let yearEndedWithShortfall := shortfallRemaining > 1/100
  let ongoingCDsPrincipal :=
    ((activeNext.filter (fun t =>
        match t.maturityDate with
        | some d => year < d.year
        | none => false)).map (fun t => t.amount)).foldl (fun a b => a + b) 0
  let ongoingInvestmentsPrincipal := ongoingCDsPrincipal + hysaBalanceEnd
  let totalPortfolioValueEndOfYear := ongoingInvestmentsPrincipal + endOfYearCash
  let yearRecord : YearRecord :=
    { year := year
      maturingValue := m.maturingValueTotal
      reinvestedValue := m.hysaValueReinvested +
        (m.newTranches.map (fun t => t.amount)).foldl (fun a b => a + b) 0
      yearlyInterest := totalYearlyInterest
      interestFromCDs := m.interestFromMaturing
      interestFromHYSA := hysaInterestThisYear
      taxesDue := taxesDueThisYear
      cashAvailableStart := st.cashBalance + m.cashFromMaturing + hysaInterestThisYear
      hysaWithdrawalToCoverShortfall := hysaWithdrawal
      withdrawalAmount := totalWithdrawalsThisYear
      netCashFlowYear := endOfYearCash - st.cashBalance
      endOfYearCash := endOfYearCash
      ongoingCDInvestments := ongoingCDsPrincipal
      endOfYearHysaBalance := hysaBalanceEnd
      ongoingInvestmentsTotal := ongoingInvestmentsPrincipal
      totalPortfolioValue := totalPortfolioValueEndOfYear
      hasShortfall := yearEndedWithShortfall
      yearEndShortfallAmount := shortfallRemaining }
  ({ cashBalance := endOfYearCash
     totalInterestEarnedCumulative := totalInterestCum
     totalTaxesPaidCumulative := totalTaxesCum
     hasShortfallOverall := st.hasShortfallOverall || yearEndedWithShortfall
     cumulativeShortfall := shortfallRemaining
     currentHysaBalance := hysaBalanceEnd
     activeCdTranches := activeNext
     reinvestCounter := m.counter }, yearRecord)

/-- The fold of `processYear` over the year range, collecting the emitted
records in order. -/
def runYears (ctx : SimCtx) : SimState → List Int → SimState × List YearRecord
  | st, [] => (st, [])
  | st, y :: ys =>
    let p := processYear ctx st y
    let rest := runYears ctx p.1 ys
    (rest.1, p.2 :: rest.2)

/-- The cumulative totals of a projection run. -/
structure ProjectionTotals where
  totalInterestEarned : ℚ
  totalTaxesPaid : ℚ
  totalInterestAfterTax : ℚ
  finalPortfolioValue : ℚ
deriving DecidableEq

/-- The value returned by `calculateProjections` (when it does not throw):
`totals = none` models the empty `totals: {}` object of the validation-error
returns, `error = none` the absent `error` property of a success result. -/
structure ProjectionResult where
  projectionYears : List YearRecord
  hasShortfall : Bool
  totals : Option ProjectionTotals
  error : Option String
deriving DecidableEq

/-- The `{ projectionYears: [], hasShortfall: false, totals: {}, error }`
shape returned on validation failure. -/
def validationErrorResult (msg : String) : ProjectionResult :=
  { projectionYears := [], hasShortfall := false, totals := none, error := some msg }

/-- The whole input object of `calculateProjections`.  `investmentStartDate =
none` models a missing or unparseable start-date string (the source
distinguishes the two cases only in the error-message text);
`rateScenario = none` models the parameter being left to its
`'ratesStayHigh'` default. -/
structure ProjectionInput where
  investmentStartDate : Option JDate
  lumpSum : Option ℚ
  taxRate : Option ℚ
  tranches : Option (List TrancheRow)
  withdrawals : Option (List Withdrawal)
  interestRates : Option (List (String × RateInfo))
  rateScenario : Option String
deriving DecidableEq

/-- The entry point `calculateProjections`, with the module-level `reinvestmentCounter` made
an explicit initial value `reinvestCounter0`.  A thrown JS exception is an
`Except.error`; every `return` of the source is an `Except.ok`.  The
`allYears.size === 0` early return of the source is unreachable (the start
year is always inserted) and has no counterpart here.  The allocated-sum
mismatch check only emits a console warning and does not influence the
result. -/
def calculateProjections (reinvestCounter0 : Nat) (input : ProjectionInput) :
    Except String ProjectionResult :=
  match input.investmentStartDate, input.lumpSum, input.taxRate, input.tranches,
      input.withdrawals, input.interestRates with
  | some parsedStart, some _lumpSum, some taxRate, some tranches, some withdrawals,
      some interestRates =>
    let startYear := parsedStart.year
    let startMonth := parsedStart.month
    let numTaxRate := taxRate / 100
    match initTranches parsedStart interestRates 0 tranches with
    | .error e => .error e
    | .ok initialTranches =>
      let minYear := minYearOf startYear withdrawals initialTranches
      let maxYear := maxYearOf startYear withdrawals initialTranches
      let yearRange := yearRangeOf minYear maxYear
      let hysaTranches := initialTranches.filter (fun t => t.isHYSA)
      let initialHysaBalance := (hysaTranches.map (fun t => t.amount)).foldl
        (fun a b => a + b) 0
      let activeCd := initialTranches.filter (fun t => !t.isHYSA)
      let ctx : SimCtx :=
        { startYear := startYear
          startMonth := startMonth
          numTaxRate := numTaxRate
          withdrawals := withdrawals
          interestRates := interestRates
          rateScenario := some (input.rateScenario.getD "ratesStayHigh")
          hysaDefined := !hysaTranches.isEmpty }
      let st0 : SimState :=
        { cashBalance := 0
          totalInterestEarnedCumulative := 0
          totalTaxesPaidCumulative := 0
          hasShortfallOverall := false
          cumulativeShortfall := 0
          currentHysaBalance := initialHysaBalance
          activeCdTranches := activeCd
          reinvestCounter := reinvestCounter0 }
      let run := runYears ctx st0 yearRange
      let finalPortfolioValue :=
        match run.2.getLast? with
        | some last => last.totalPortfolioValue
        | none => initialHysaBalance +
            ((initialTranches.filter (fun t => !t.isHYSA)).map (fun t => t.amount)).foldl
              (fun a b => a + b) 0
      .ok { projectionYears := run.2
            hasShortfall := run.1.hasShortfallOverall
            totals := some
              { totalInterestEarned := run.1.totalInterestEarnedCumulative
                totalTaxesPaid := run.1.totalTaxesPaidCumulative
                totalInterestAfterTax := run.1.totalInterestEarnedCumulative -
                  run.1.totalTaxesPaidCumulative
                finalPortfolioValue := finalPortfolioValue }
            error := none }
  | _, _, _, _, _, _ =>
    .ok (validationErrorResult
      "Missing or invalid required inputs (Date, Lump Sum, Tax Rate)")

/-! Section: Concrete inputs used by the counterexamples and witnesses below -/

/-- A base rate table with a 0%-APY HYSA term and a 0%-APY 12-month term. -/
def ratesZero : List (String × RateInfo) :=
  [("HYSA", { apy := some 0, duration := none }),
   ("12m", { apy := some 0, duration := some 12 })]

/-- A 100-unit 12-month CD electing `cash`, together with a 50-unit
withdrawal in the start year that the portfolio cannot cover until the CD
matures: the year after the withdrawal starts with a carried shortfall. -/
def inputC1 : ProjectionInput :=
  { investmentStartDate := some { year := 2024, month := 0 }
    lumpSum := some 100
    taxRate := some 0
    tranches := some [{ id := some "cd1", amount := some 100, term := "12m",
                        reinvestmentOption := some "cash", reinvestmentTerm := some "12m" }]
    withdrawals := some [{ date := some { year := 2024, month := 5 }, amount := some 50 }]
    interestRates := some ratesZero
    rateScenario := none }

/-- The simulation context `calculateProjections` builds from `inputC1`. -/
def ctxC1 : SimCtx :=
  { startYear := 2024, startMonth := 0, numTaxRate := 0
    withdrawals := [{ date := some { year := 2024, month := 5 }, amount := some 50 }]
    interestRates := ratesZero
    rateScenario := some "ratesStayHigh"
    hysaDefined := false }

/-- The initial simulation state `calculateProjections` builds from
`inputC1` (counter 0). -/
def st0C1 : SimState :=
  { cashBalance := 0, totalInterestEarnedCumulative := 0,
    totalTaxesPaidCumulative := 0, hasShortfallOverall := false,
    cumulativeShortfall := 0, currentHysaBalance := 0,
    activeCdTranches :=
      match initTranches { year := 2024, month := 0 } ratesZero 0
          [{ id := some "cd1", amount := some 100, term := "12m",
             reinvestmentOption := some "cash", reinvestmentTerm := some "12m" }] with
      | .ok l => l.filter (fun t => !t.isHYSA)
      | .error _ => [],
    reinvestCounter := 0 }

/-- The state carried into year 2025 of the `inputC1` run: year 2024 ended
with an uncovered 50-unit shortfall. -/
def stC1 : SimState := (processYear ctxC1 st0C1 2024).1

/-- Predicate `badRow rates t = true` iff the `initialTranches` map callback throws on
row `t`: its term is absent from the rate table, its APY is not a number, or
(for a non-HYSA term) its duration is missing or non-positive. -/
def badRow (rates : List (String × RateInfo)) (t : TrancheRow) : Bool :=
  match lookupRate rates t.term with
  | none => true
  | some ri =>
    ri.apy.isNone ||
      (t.term != "HYSA" &&
        (match ri.duration with
         | none => true
         | some q => decide (q ≤ 0)))

/-- An allocation row whose term `"gone"` is absent from the rate table. -/
def rowC2 : TrancheRow :=
  { id := none, amount := some 100, term := "gone",
    reinvestmentOption := none, reinvestmentTerm := none }

/-- An otherwise valid input whose only allocation row references a term
absent from the rate table. -/
def inputC2 : ProjectionInput :=
  { investmentStartDate := some { year := 2024, month := 0 }
    lumpSum := some 100
    taxRate := some 0
    tranches := some [rowC2]
    withdrawals := some []
    interestRates := some ratesZero
    rateScenario := none }

/-- A portfolio starting in 2024 whose only withdrawal is dated 2020. -/
def inputC3 : ProjectionInput :=
  { investmentStartDate := some { year := 2024, month := 0 }
    lumpSum := some 0
    taxRate := some 0
    tranches := some []
    withdrawals := some [{ date := some { year := 2020, month := 4 }, amount := some 10 }]
    interestRates := some ratesZero
    rateScenario := none }

/-- A valid input for the C3 witness: start 2024, one withdrawal in 2025. -/
def inputC3w : ProjectionInput :=
  { investmentStartDate := some { year := 2024, month := 0 }
    lumpSum := some 0
    taxRate := some 0
    tranches := some []
    withdrawals := some [{ date := some { year := 2025, month := 2 }, amount := some 10 }]
    interestRates := some ratesZero
    rateScenario := none }

/-- A single 12-month CD at 4% electing `cash`, no HYSA, no withdrawals:
no cash ever flows through a scenario-rated instrument. -/
def inputC4 : ProjectionInput :=
  { investmentStartDate := some { year := 2024, month := 0 }
    lumpSum := some 100
    taxRate := some 0
    tranches := some [{ id := some "cd1", amount := some 100, term := "12m",
                        reinvestmentOption := some "cash", reinvestmentTerm := some "12m" }]
    withdrawals := some []
    interestRates := some [("12m", { apy := some 4, duration := some 12 })]
    rateScenario := some "ratesStayHigh" }

/-- The input `inputC4` under the aggressive rate-fall scenario. -/
def inputC4C : ProjectionInput := { inputC4 with rateScenario := some "ratesFallSignificantly" }

/-- A 1000-unit HYSA allocation at a 4% base APY (above the scenario floors),
zero tax, no withdrawals: the liquid account earns at the scenario rate every
year. -/
def inputC4H : ProjectionInput :=
  { investmentStartDate := some { year := 2024, month := 0 }
    lumpSum := some 1000
    taxRate := some 0
    tranches := some [{ id := some "h1", amount := some 1000, term := "HYSA",
                        reinvestmentOption := none, reinvestmentTerm := none }]
    withdrawals := some []
    interestRates := some [("HYSA", { apy := some 4, duration := none })]
    rateScenario := some "ratesStayHigh" }

/-- The input `inputC4H` under the aggressive rate-fall scenario. -/
def inputC4HC : ProjectionInput := { inputC4H with rateScenario := some "ratesFallSignificantly" }

/-- A valid input with no allocations and no withdrawals: six all-zero
projection years. -/
def inputC8 : ProjectionInput :=
  { investmentStartDate := some { year := 2024, month := 0 }
    lumpSum := some 0
    taxRate := some 0
    tranches := some []
    withdrawals := some []
    interestRates := some []
    rateScenario := none }

/-- A default `YearRecord` used only as the `headD` fallback when extracting
a concrete record from a concrete run. -/
def fallbackYearRecord : YearRecord :=
  { year := 0, maturingValue := 0, reinvestedValue := 0, yearlyInterest := 0,
    interestFromCDs := 0, interestFromHYSA := 0, taxesDue := 0,
    cashAvailableStart := 0, hysaWithdrawalToCoverShortfall := 0,
    withdrawalAmount := 0, netCashFlowYear := 0, endOfYearCash := 0,
    ongoingCDInvestments := 0, endOfYearHysaBalance := 0,
    ongoingInvestmentsTotal := 0, totalPortfolioValue := 0,
    hasShortfall := false, yearEndShortfallAmount := 0 }

/-- The success payload of the `inputC8` run. -/
def resC8 : ProjectionResult :=
  match calculateProjections 0 inputC8 with
  | .ok r => r
  | .error _ => validationErrorResult ""

/-- The first emitted record of the `inputC8` run. -/
def recC8 : YearRecord := resC8.projectionYears.headD fallbackYearRecord

/-- A rate table whose 12-month APY is −300%: a pathological but accepted
value (the source only checks that the APY is a number), making the CD's
value at maturity negative. -/
def ratesC10 : List (String × RateInfo) :=
  [("HYSA", { apy := some 0, duration := none }),
   ("12m", { apy := some (-300), duration := some 12 })]

/-- Non-negative allocation amounts (100 into the HYSA, 100 into the
−300%-APY CD electing `hysa`): at maturity the CD contributes a negative
value to the liquid balance. -/
def inputC10 : ProjectionInput :=
  { investmentStartDate := some { year := 2024, month := 0 }
    lumpSum := some 200
    taxRate := some 0
    tranches := some [{ id := some "h1", amount := some 100, term := "HYSA",
                        reinvestmentOption := none, reinvestmentTerm := none },
                      { id := some "cd1", amount := some 100, term := "12m",
                        reinvestmentOption := some "hysa", reinvestmentTerm := none }]
    withdrawals := some []
    interestRates := some ratesC10
    rateScenario := none }

/-- A rate table for the C10 witness with ordinary non-negative APYs. -/
def ratesC10w : List (String × RateInfo) :=
  [("HYSA", { apy := some 4, duration := none }),
   ("12m", { apy := some 4, duration := some 12 })]

/-- A well-behaved input for the C10 witness: a 100-unit HYSA allocation and
a 100-unit 12-month CD at 4% electing `hysa`. -/
def inputC10w : ProjectionInput :=
  { investmentStartDate := some { year := 2024, month := 0 }
    lumpSum := some 200
    taxRate := some 0
    tranches := some [{ id := some "h1", amount := some 100, term := "HYSA",
                        reinvestmentOption := none, reinvestmentTerm := none },
                      { id := some "cd1", amount := some 100, term := "12m",
                        reinvestmentOption := some "hysa", reinvestmentTerm := none }]
    withdrawals := some []
    interestRates := some ratesC10w
    rateScenario := none }

/-- The success payload of the `inputC10w` run. -/
def resC10w : ProjectionResult :=
  match calculateProjections 0 inputC10w with
  | .ok r => r
  | .error _ => validationErrorResult ""

/-- The first emitted record of the `inputC10w` run. -/
def recC10w : YearRecord := resC10w.projectionYears.headD fallbackYearRecord

/-- A tranche is harmless for the liquid balance when, if it elects the
`hysa` reinvestment option, its value at maturity is non-negative. -/
def hysaSafeTranche (t : Tranche) : Prop :=
  t.reinvestmentOption = "hysa" → 0 ≤ t.valueAtMaturity

/-- Invariant of the yearly loop guaranteeing a non-negative liquid balance:
the balance carried into the year is non-negative and every active CD is
harmless for it. -/
def HysaInv (st : SimState) : Prop :=
  0 ≤ st.currentHysaBalance ∧ ∀ t ∈ st.activeCdTranches, hysaSafeTranche t

/-- Invariant of the maturity-loop accumulator: the pending liquid inflow is
non-negative and every tranche kept for later years is harmless for the
liquid balance. -/
def MaturityAccInv (acc : MaturityAcc) : Prop :=
  0 ≤ acc.hysaValueReinvested ∧ (∀ t ∈ acc.remaining, hysaSafeTranche t) ∧
    (∀ t ∈ acc.newTranches, hysaSafeTranche t)

/-! Section: General lemmas about the helper functions -/

theorem le_jsMax_left (a b : ℚ) : a ≤ jsMax a b := by
  unfold jsMax
  split
  · assumption
  · exact le_refl a

theorem jsMin_le_right (a b : ℚ) : jsMin a b ≤ b := by
  unfold jsMin
  split
  · assumption
  · exact le_refl b

theorem le_jsMaxI_left (a b : Int) : a ≤ jsMaxI a b := by
  unfold jsMaxI
  split
  · assumption
  · exact le_refl a

theorem le_foldl_jsMaxI (l : List Int) (a b : Int) (h : a ≤ b) :
    a ≤ l.foldl jsMaxI b := by
  induction l generalizing b with
  | nil => exact h
  | cons y l ih =>
    exact ih (jsMaxI b y) (le_trans h (le_jsMaxI_left b y))

theorem foldl_jsMinI_eq (l : List Int) (a : Int) (h : ∀ y ∈ l, a ≤ y) :
    l.foldl jsMinI a = a := by
  induction l with
  | nil => rfl
  | cons y l ih =>
    have hy : jsMinI a y = a := by
      unfold jsMinI
      rw [if_pos (h y (List.mem_cons_self y l))]
    rw [List.foldl_cons, hy]
    exact ih (fun z hz => h z (List.mem_cons_of_mem y hz))

theorem mathPow_nonneg (b e : ℚ) (hb : 0 ≤ b) : 0 ≤ mathPow b e := by
  unfold mathPow
  split
  · exact pow_nonneg hb _
  · exact le_refl 0

theorem foldl_add_nonneg (l : List ℚ) (a : ℚ) (ha : 0 ≤ a)
    (h : ∀ x ∈ l, 0 ≤ x) : 0 ≤ l.foldl (fun p q => p + q) a := by
  induction l generalizing a with
  | nil => exact ha
  | cons y l ih =>
    rw [List.foldl_cons]
    exact ih (a + y) (add_nonneg ha (h y (List.mem_cons_self y l)))
      (fun z hz => h z (List.mem_cons_of_mem y hz))

theorem addMonths_year_le (d : JDate) (m : Nat) : d.year ≤ (addMonths d m).year := by
  unfold addMonths
  exact Int.le_add_of_nonneg_right (Int.ofNat_nonneg _)

theorem lookupRate_mem (rates : List (String × RateInfo)) (k : String) (ri : RateInfo)
    (h : lookupRate rates k = some ri) : ∃ p, p ∈ rates ∧ p.2 = ri := by
  unfold lookupRate at h
  cases hf : rates.find? (fun p => p.1 == k) with
  | none => rw [hf] at h; simp at h
  | some p =>
    rw [hf] at h
    simp only [Option.map_some', Option.some.injEq] at h
    exact ⟨p, List.mem_of_find?_eq_some hf, h⟩

/-! Section: Claims about the Rate Scenario Resolver -/

theorem rateScenarioConfig_ne_baseline (k : String) (cfg : ScenarioConfig)
    (h : rateScenarioConfig k = some cfg) : k ≠ "ratesStayHigh" := by
  intro hk
  rw [hk] at h
  simp [rateScenarioConfig] at h

/-- C5 counterexample: under the aggressive rate-fall scenario (configured
floor 0.10), a term key absent from the base rate table makes the resolver
return 0, strictly below the scenario's floor. -/
theorem C5_counterexample :
    getRateForYear "6m" 2024 (some "ratesFallSignificantly") ratesZero 2024 = 0 ∧
    (rateScenarioConfig "ratesFallSignificantly").map (fun cfg => cfg.floor) =
      some (1/10) ∧
    (0 : ℚ) < 1/10 := by
  refine ⟨by with_unfolding_all rfl, by with_unfolding_all rfl, by norm_num⟩

/-- C5 (amended): for every configured non-baseline scenario and every term
key that the base rate table resolves to a numeric APY, the resolver never
returns below the scenario's configured floor, for any year. -/
theorem C5_floor_lower_bound (termKey : String) (year startYear : Int) (k : String)
    (cfg : ScenarioConfig) (baseRates : List (String × RateInfo)) (ri : RateInfo)
    (a : ℚ) (hcfg : rateScenarioConfig k = some cfg)
    (hlook : lookupRate baseRates termKey = some ri) (hapy : ri.apy = some a) :
    cfg.floor ≤ getRateForYear termKey year (some k) baseRates startYear := by
  have hk := rateScenarioConfig_ne_baseline k cfg hcfg
  simp only [getRateForYear, hlook, hapy, hcfg]
  rw [if_neg (by simp [hk])]
  exact le_jsMax_left _ _

/-- C5 witness: the floor bound at a concrete term, year and table. -/
theorem C5_witness :
    fallSignificantlyConfig.floor ≤
      getRateForYear "12m" 2030 (some "ratesFallSignificantly") ratesZero 2024 :=
  C5_floor_lower_bound "12m" 2030 2024 "ratesFallSignificantly"
    fallSignificantlyConfig ratesZero { apy := some 0, duration := some 12 } 0
    rfl rfl rfl

/-- C6: for the baseline scenario, an absent scenario id, or an unknown
scenario id, the resolver returns exactly the base table's APY for every
term resolving to a numeric APY and every year, with no floor clamp. -/
theorem C6_baseline_returns_base (termKey : String) (year startYear : Int)
    (scenarioKey : Option String) (baseRates : List (String × RateInfo))
    (ri : RateInfo) (a : ℚ)
    (hlook : lookupRate baseRates termKey = some ri) (hapy : ri.apy = some a)
    (hbase : scenarioKey = some "ratesStayHigh" ∨ scenarioKey = none ∨
      ∃ k, scenarioKey = some k ∧ rateScenarioConfig k = none) :
    getRateForYear termKey year scenarioKey baseRates startYear = a := by
  simp only [getRateForYear, hlook, hapy]
  rcases hbase with h | h | ⟨k, hk, hcfg⟩
  · rw [if_pos (Or.inl h)]
  · rw [if_pos (Or.inr h)]
  · subst hk
    by_cases hkk : k = "ratesStayHigh"
    · rw [if_pos (Or.inl (by rw [hkk]))]
    · rw [if_neg (by simp [hkk])]
      simp only [hcfg]

/-- C6 witness: all three baseline-like cases at a concrete term and year. -/
theorem C6_witness :
    getRateForYear "HYSA" 2026 (some "ratesStayHigh") ratesZero 2024 = 0 ∧
    getRateForYear "HYSA" 2026 none ratesZero 2024 = 0 ∧
    getRateForYear "HYSA" 2026 (some "someUnknownScenario") ratesZero 2024 = 0 :=
  ⟨C6_baseline_returns_base "HYSA" 2026 2024 (some "ratesStayHigh") ratesZero
      { apy := some 0, duration := none } 0 rfl rfl (Or.inl rfl),
   C6_baseline_returns_base "HYSA" 2026 2024 none ratesZero
      { apy := some 0, duration := none } 0 rfl rfl (Or.inr (Or.inl rfl)),
   C6_baseline_returns_base "HYSA" 2026 2024 (some "someUnknownScenario") ratesZero
      { apy := some 0, duration := none } 0 rfl rfl
      (Or.inr (Or.inr ⟨"someUnknownScenario", rfl, rfl⟩))⟩

/-- C7: in the interpolation window (`startElapsed ≤ yearsElapsed <
fullElapsed`, positive span) the resolver returns
`max(floor, baseApy + (target − baseApy) · (yearsElapsed − startElapsed + 1)
/ (span + 1))`, with `target` the base APY plus the per-term adjustment,
falling back to the liquid-account adjustment and then to zero. -/
theorem C7_interpolation (termKey : String) (year startYear : Int) (k : String)
    (cfg : ScenarioConfig) (baseRates : List (String × RateInfo)) (ri : RateInfo)
    (a : ℚ) (hcfg : rateScenarioConfig k = some cfg)
    (hlook : lookupRate baseRates termKey = some ri) (hapy : ri.apy = some a)
    (hspan : 0 < cfg.targetYearFullEffect - cfg.targetYearStartEffect)
    (hlo : cfg.targetYearStartEffect - 1 ≤ year - startYear)
    (hhi : year - startYear < cfg.targetYearFullEffect - 1) :
    getRateForYear termKey year (some k) baseRates startYear =
      jsMax cfg.floor ((a + ((a + scenarioAdjustment cfg termKey) - a) *
        (((year - startYear - (cfg.targetYearStartEffect - 1) + 1 : Int) : ℚ) /
         (((cfg.targetYearFullEffect - 1 - (cfg.targetYearStartEffect - 1)) + 1 : Int) : ℚ)))) := by
  have hk := rateScenarioConfig_ne_baseline k cfg hcfg
  simp only [getRateForYear, hlook, hapy, hcfg]
  rw [if_neg (by simp [hk])]
  rw [if_neg (by omega)]
  rw [if_pos (by constructor <;> omega)]

/-- C7 witness: the moderate-fall scenario one year into its window on a 4%
12-month base rate yields `max(0.25, 4 − 0.75/2) = 29/8`. -/
theorem C7_witness :
    getRateForYear "12m" 2025 (some "ratesFallModerately")
      [("12m", { apy := some 4, duration := some 12 })] 2024 = 29/8 := by
  have h := C7_interpolation "12m" 2025 2024 "ratesFallModerately"
    fallModeratelyConfig [("12m", { apy := some 4, duration := some 12 })]
    { apy := some 4, duration := some 12 } 4 rfl (by with_unfolding_all rfl)
    rfl (by decide) (by decide) (by decide)
  rw [h]
  with_unfolding_all rfl

/-! Section: Claims about the cash-available record field -/

/-- C1 (amended): the reported `cashAvailableStart` field equals the raw
incoming cash balance plus the cash from maturities plus the liquid
interest; the carried shortfall is not deducted in the reported figure (it
is deducted only in the internal cash-available figure that feeds the
net-flow computation). -/
theorem C1_reported_cash_available (ctx : SimCtx) (st : SimState) (year : Int) :
    ((processYear ctx st year).2).cashAvailableStart =
      st.cashBalance +
        (processMaturities ctx st.cumulativeShortfall st.reinvestCounter year
          st.activeCdTranches).cashFromMaturing +
        hysaInterestFor ctx st.currentHysaBalance year := rfl

/-- C1 counterexample: in the `inputC1` run, year 2024 ends with cash 0 and
an uncovered 50-unit shortfall; in year 2025 the maturing 100 units are
forced to cash and there is no liquid interest, so the claim's formula
`startingCash + cashFromMaturities + liquidInterest` gives
`(0 − 50) + 100 + 0 = 50`, while the emitted record reports 100. -/
theorem C1_counterexample :
    ((calculateProjections 0 inputC1).toOption.map
        (fun r => r.projectionYears.map (fun y => (y.year, y.cashAvailableStart)))) =
      some [(2024, 0), (2025, 100), (2026, 50), (2027, 50), (2028, 50),
        (2029, 50), (2030, 50)] ∧
    stC1.cashBalance = 0 ∧
    stC1.cumulativeShortfall = 50 ∧
    (processMaturities ctxC1 stC1.cumulativeShortfall stC1.reinvestCounter 2025
        stC1.activeCdTranches).cashFromMaturing = 100 ∧
    hysaInterestFor ctxC1 stC1.currentHysaBalance 2025 = 0 ∧
    ((processYear ctxC1 stC1 2025).2).cashAvailableStart = 100 ∧
    (100 : ℚ) ≠ stC1.cashBalance - stC1.cumulativeShortfall +
      (processMaturities ctxC1 stC1.cumulativeShortfall stC1.reinvestCounter 2025
        stC1.activeCdTranches).cashFromMaturing +
      hysaInterestFor ctxC1 stC1.currentHysaBalance 2025 := by
  refine ⟨?_, ?_, ?_, ?_, ?_, ?_, ?_⟩ <;>
    first
      | with_unfolding_all rfl
      | exact of_decide_eq_true (by with_unfolding_all rfl)

/-! Section: Claims about data-error handling -/

theorem initTranche_error_of_badRow (parsedStart : JDate)
    (rates : List (String × RateInfo)) (i : Nat) (t : TrancheRow)
    (h : badRow rates t = true) :
    ∃ e, initTranche parsedStart rates i t = Except.error e := by
  unfold initTranche
  cases hl : lookupRate rates t.term with
  | none =>
    refine ⟨"Missing or invalid rate data for term: " ++ t.term, ?_⟩
    simp only [hl]
  | some ri =>
    cases ha : ri.apy with
    | none =>
      refine ⟨"Missing or invalid rate data for term: " ++ t.term, ?_⟩
      simp only [hl, ha]
    | some a =>
      unfold badRow at h
      rw [hl] at h
      have hrest : t.term ≠ "HYSA" ∧
          (match ri.duration with
           | none => true
           | some q => decide (q ≤ 0)) = true := by
        simpa [ha, bne_iff_ne] using h
      obtain ⟨ht, hdur⟩ := hrest
      simp only [hl, ha]
      rw [if_neg ht]
      cases hd : ri.duration with
      | none =>
        refine ⟨"Invalid duration for term: " ++ t.term, ?_⟩
        simp only [hd]
      | some q =>
        rw [hd] at hdur
        simp only [decide_eq_true_eq] at hdur
        refine ⟨"Invalid duration for term: " ++ t.term, ?_⟩
        simp only [hd]
        rw [if_pos hdur]

theorem initTranches_error_of_mem (parsedStart : JDate)
    (rates : List (String × RateInfo)) (ts : List TrancheRow)
    (hbad : ∃ t ∈ ts, badRow rates t = true) :
    ∀ i, ∃ e, initTranches parsedStart rates i ts = Except.error e := by
  induction ts with
  | nil =>
    obtain ⟨t, ht, _⟩ := hbad
    exact absurd ht (List.not_mem_nil t)
  | cons hd tl ih =>
    intro i
    cases hstep : initTranche parsedStart rates i hd with
    | error e => exact ⟨e, by simp only [initTranches, hstep]⟩
    | ok tr =>
      obtain ⟨t, ht, hb⟩ := hbad
      rcases List.mem_cons.mp ht with rfl | htl
      · obtain ⟨e, he⟩ := initTranche_error_of_badRow parsedStart rates i t hb
        rw [hstep] at he
        exact absurd he (by simp)
      · obtain ⟨e, he⟩ := ih ⟨t, htl, hb⟩ (i + 1)
        refine ⟨e, ?_⟩
        simp only [initTranches, hstep, he]

/-- C2 (amended): when the validated inputs are all present but some
allocation row references a term absent from the rate table (or a non-HYSA
term with a missing/non-positive duration, or a non-numeric APY), the
projection aborts by propagating the thrown exception (`Except.error`) to
the caller — it does not return the `{ years: [], error }` result shape,
which is reserved for the input-validation failures. -/
theorem C2_data_error_throws (c : Nat) (input : ProjectionInput) (d : JDate)
    (L T : ℚ) (ts : List TrancheRow) (ws : List Withdrawal)
    (rates : List (String × RateInfo))
    (h1 : input.investmentStartDate = some d) (h2 : input.lumpSum = some L)
    (h3 : input.taxRate = some T) (h4 : input.tranches = some ts)
    (h5 : input.withdrawals = some ws) (h6 : input.interestRates = some rates)
    (hbad : ∃ t ∈ ts, badRow rates t = true) :
    ∃ e, calculateProjections c input = Except.error e := by
  obtain ⟨e, he⟩ := initTranches_error_of_mem d rates ts hbad 0
  refine ⟨e, ?_⟩
  cases input
  simp only at h1 h2 h3 h4 h5 h6
  subst h1 h2 h3 h4 h5 h6
  simp only [calculateProjections, he]

/-- C2 counterexample: on a concrete input whose only allocation row uses a
term absent from the rate table, `calculateProjections` produces the thrown
exception (`Except.error`), not an `Except.ok` carrying the
`{ years: [], error }` shape the claim asserts. -/
theorem C2_counterexample :
    calculateProjections 0 inputC2 =
      Except.error ("Missing or invalid rate data for term: gone") ∧
    ¬ ∃ res : ProjectionResult, calculateProjections 0 inputC2 = Except.ok res := by
  have h : calculateProjections 0 inputC2 =
      Except.error ("Missing or invalid rate data for term: gone") := by
    with_unfolding_all rfl
  refine ⟨h, ?_⟩
  rintro ⟨res, hres⟩
  rw [h] at hres
  exact Except.noConfusion hres

/-- C2 witness: the amended statement applied to the concrete input. -/
theorem C2_witness : ∃ e, calculateProjections 0 inputC2 = Except.error e :=
  C2_data_error_throws 0 inputC2 { year := 2024, month := 0 } 100 0 [rowC2] []
    ratesZero rfl rfl rfl rfl rfl rfl
    ⟨rowC2, List.mem_cons_self rowC2 [], by with_unfolding_all rfl⟩

/-! Section: Claims comparing rate scenarios -/

/-- C4 counterexample: on identical inputs whose cash never flows through a
scenario-rated instrument (a single CD electing `cash`, no HYSA), the
baseline run and the aggressive-fall run produce identical cumulative
interest (4) and identical final portfolio value (104), so neither quantity
is strictly lower. -/
theorem C4_counterexample :
    ((calculateProjections 0 inputC4).toOption.bind (fun r => r.totals)).map
        (fun t => (t.totalInterestEarned, t.finalPortfolioValue)) =
      some (4, 104) ∧
    ((calculateProjections 0 inputC4C).toOption.bind (fun r => r.totals)).map
        (fun t => (t.totalInterestEarned, t.finalPortfolioValue)) =
      some (4, 104) ∧
    ¬ ((4 : ℚ) < 4 ∧ (104 : ℚ) < 104) := by
  refine ⟨by with_unfolding_all rfl, by with_unfolding_all rfl, by norm_num⟩

/-- C4 (amended): on a representative input where cash does earn at the
scenario rate every year (a 1000-unit HYSA allocation at a 4% base APY,
above the scenario floor), the aggressive-fall run's cumulative interest
(157.5) and final portfolio value (1157.5) are both strictly lower than the
baseline run's (240 and 1240). -/
theorem C4_scenario_dominance :
    ((calculateProjections 0 inputC4HC).toOption.bind (fun r => r.totals)).map
        (fun t => (t.totalInterestEarned, t.finalPortfolioValue)) =
      some (315/2, 2315/2) ∧
    ((calculateProjections 0 inputC4H).toOption.bind (fun r => r.totals)).map
        (fun t => (t.totalInterestEarned, t.finalPortfolioValue)) =
      some (240, 1240) ∧
    (315/2 : ℚ) < 240 ∧ (2315/2 : ℚ) < 1240 := by
  refine ⟨by with_unfolding_all rfl, by with_unfolding_all rfl, by norm_num,
    by norm_num⟩

/-! Section: Determinism of the projection -/

/-- C9: with the module-level reinvestment counter modelled as an explicit
initial value, the projection is a pure function: two runs on identical
inputs and an identical initial counter value yield identical
`YearRecord` sequences (hence field-for-field equal values and flags). -/
theorem C9_deterministic_runs (c : Nat) (input : ProjectionInput)
    (res1 res2 : ProjectionResult)
    (h1 : calculateProjections c input = Except.ok res1)
    (h2 : calculateProjections c input = Except.ok res2) :
    res1.projectionYears = res2.projectionYears := by
  rw [h1] at h2
  injection h2 with h
  rw [h]

/-- C9 witness: two runs of the `inputC8` projection with counter 0. -/
theorem C9_witness : resC8.projectionYears = resC8.projectionYears :=
  C9_deterministic_runs 0 inputC8 resC8 resC8 (by with_unfolding_all rfl)
    (by with_unfolding_all rfl)

/-! Section: Conservation of value in every emitted record -/

theorem processYear_conservation (ctx : SimCtx) (st : SimState) (year : Int) :
    ((processYear ctx st year).2).endOfYearCash +
      ((processYear ctx st year).2).endOfYearHysaBalance +
      ((processYear ctx st year).2).ongoingCDInvestments =
      ((processYear ctx st year).2).totalPortfolioValue := by
  simp only [processYear]
  ring

theorem runYears_conservation (ctx : SimCtx) :
    ∀ (ys : List Int) (st : SimState), ∀ r ∈ (runYears ctx st ys).2,
      r.endOfYearCash + r.endOfYearHysaBalance + r.ongoingCDInvestments =
        r.totalPortfolioValue := by
  intro ys
  induction ys with
  | nil =>
    intro st r hr
    simp [runYears] at hr
  | cons y ys ih =>
    intro st r hr
    simp only [runYears] at hr
    rcases List.mem_cons.mp hr with rfl | htl
    · exact processYear_conservation ctx st y
    · exact ih (processYear ctx st y).1 r htl

set_option maxRecDepth 4000 in
/-- C8: every emitted `YearRecord` satisfies the conservation law
`endOfYearCash + endOfYearHysaBalance + ongoingCDInvestments =
totalPortfolioValue` — exactly, hence a fortiori within the 0.01
tolerance. -/
theorem C8_conservation (c : Nat) (input : ProjectionInput) (res : ProjectionResult)
    (h : calculateProjections c input = Except.ok res) :
    ∀ r ∈ res.projectionYears,
      r.endOfYearCash + r.endOfYearHysaBalance + r.ongoingCDInvestments =
        r.totalPortfolioValue := by
  obtain ⟨f1, f2, f3, f4, f5, f6, f7⟩ := input
  rcases f1 with _ | d <;> rcases f2 with _ | L <;> rcases f3 with _ | T <;>
    rcases f4 with _ | ts <;> rcases f5 with _ | ws <;> rcases f6 with _ | rates
  all_goals try
    (simp only [calculateProjections] at h
     injection h with h
     subst h
     intro r hr
     simp [validationErrorResult] at hr)
  simp only [calculateProjections] at h
  cases hi : initTranches d rates 0 ts with
  | error e =>
    rw [hi] at h
    simp at h
  | ok l =>
    simp only [hi] at h
    injection h with h
    subst h
    intro r hr
    exact runYears_conservation _ _ _ r hr

set_option maxRecDepth 100000 in
/-- C8 witness: the conservation law on the first record of the `inputC8`
run. -/
theorem C8_witness :
    recC8.endOfYearCash + recC8.endOfYearHysaBalance + recC8.ongoingCDInvestments =
      recC8.totalPortfolioValue :=
  C8_conservation 0 inputC8 resC8 (by with_unfolding_all rfl) recC8
    (of_decide_eq_true (by with_unfolding_all rfl))

/-! Section: The first simulated year -/

theorem yearRangeOf_head (minY maxY : Int) (h : minY ≤ maxY) :
    (yearRangeOf minY maxY).head? = some minY := by
  unfold yearRangeOf
  have hn : (maxY + 1 - minY).toNat = (maxY - minY).toNat + 1 := by omega
  rw [hn, List.range_succ_eq_map]
  simp

theorem runYears_years (ctx : SimCtx) :
    ∀ (ys : List Int) (st : SimState),
      ((runYears ctx st ys).2).map (fun r => r.year) = ys := by
  intro ys
  induction ys with
  | nil => intro st; rfl
  | cons y ys ih =>
    intro st
    simp only [runYears, List.map_cons, ih]
    rfl

theorem initTranche_maturity_ge (parsedStart : JDate)
    (rates : List (String × RateInfo)) (i : Nat) (t : TrancheRow) (tr : Tranche)
    (h : initTranche parsedStart rates i t = Except.ok tr) :
    ∀ md, tr.maturityDate = some md → parsedStart.year ≤ md.year := by
  unfold initTranche at h
  cases hl : lookupRate rates t.term with
  | none => simp only [hl] at h; exact Except.noConfusion h
  | some ri =>
    cases ha : ri.apy with
    | none => simp only [hl, ha] at h; exact Except.noConfusion h
    | some a =>
      simp only [hl, ha] at h
      by_cases ht : t.term = "HYSA"
      · rw [if_pos ht] at h
        injection h with h
        subst h
        intro md hmd
        simp at hmd
      · rw [if_neg ht] at h
        cases hd : ri.duration with
        | none => simp only [hd] at h; exact Except.noConfusion h
        | some q =>
          simp only [hd] at h
          by_cases hq : q ≤ 0
          · rw [if_pos hq] at h
            exact absurd h (by simp)
          · rw [if_neg hq] at h
            injection h with h
            subst h
            intro md hmd
            simp only [Option.some.injEq] at hmd
            subst hmd
            exact addMonths_year_le parsedStart _

theorem initTranches_mem_source (parsedStart : JDate)
    (rates : List (String × RateInfo)) :
    ∀ (ts : List TrancheRow) (i : Nat) (l : List Tranche),
      initTranches parsedStart rates i ts = Except.ok l →
      ∀ tr ∈ l, ∃ j t, t ∈ ts ∧ initTranche parsedStart rates j t = Except.ok tr := by
  intro ts
  induction ts with
  | nil =>
    intro i l h tr htr
    simp only [initTranches] at h
    injection h with h
    subst h
    exact absurd htr (List.not_mem_nil tr)
  | cons t ts ih =>
    intro i l h tr htr
    simp only [initTranches] at h
    cases hstep : initTranche parsedStart rates i t with
    | error e => rw [hstep] at h; simp at h
    | ok tr0 =>
      rw [hstep] at h
      cases hrest : initTranches parsedStart rates (i + 1) ts with
      | error e => rw [hrest] at h; simp at h
      | ok l0 =>
        rw [hrest] at h
        simp only at h
        injection h with h
        subst h
        rcases List.mem_cons.mp htr with rfl | htl
        · exact ⟨i, t, List.mem_cons_self t ts, hstep⟩
        · obtain ⟨j, t', ht', hj⟩ := ih (i + 1) l0 hrest tr htl
          exact ⟨j, t', List.mem_cons_of_mem t ht', hj⟩

theorem minYearOf_eq_start (startYear : Int) (ws : List Withdrawal)
    (ts : List Tranche) (hw : ∀ y ∈ withdrawalYears ws, startYear ≤ y)
    (hm : ∀ y ∈ maturityYears ts, startYear ≤ y) :
    minYearOf startYear ws ts = startYear := by
  unfold minYearOf
  apply foldl_jsMinI_eq
  intro y hy
  rcases List.mem_append.mp hy with h | h
  · exact hw y h
  · exact hm y h

theorem startYear_le_maxYearOf (startYear : Int) (ws : List Withdrawal)
    (ts : List Tranche) : startYear ≤ maxYearOf startYear ws ts := by
  unfold maxYearOf maxKnownEventYearOf
  exact le_trans (le_foldl_jsMaxI _ startYear startYear (le_refl _))
    (le_jsMaxI_left _ _)

/-- C3 (amended): the first simulated year is the portfolio start year for
every run whose withdrawals are not dated before the start year (initial
maturities can never precede it); a withdrawal dated earlier does pull the
first simulated year back, as the counterexample shows. -/
theorem C3_first_year (c : Nat) (input : ProjectionInput) (d : JDate) (L T : ℚ)
    (ts : List TrancheRow) (ws : List Withdrawal)
    (rates : List (String × RateInfo)) (its : List Tranche)
    (h1 : input.investmentStartDate = some d) (h2 : input.lumpSum = some L)
    (h3 : input.taxRate = some T) (h4 : input.tranches = some ts)
    (h5 : input.withdrawals = some ws) (h6 : input.interestRates = some rates)
    (hinit : initTranches d rates 0 ts = Except.ok its)
    (hw : ∀ w ∈ ws, ∀ dd : JDate, w.date = some dd → d.year ≤ dd.year) :
    ∃ res, calculateProjections c input = Except.ok res ∧
      res.projectionYears.head?.map (fun r => r.year) = some d.year := by
  have hwy : ∀ y ∈ withdrawalYears ws, d.year ≤ y := by
    intro y hy
    obtain ⟨w, hwmem, hwyr⟩ := List.mem_filterMap.mp hy
    cases hdte : w.date with
    | none => rw [hdte] at hwyr; simp at hwyr
    | some dd =>
      rw [hdte] at hwyr
      simp only [Option.map_some', Option.some.injEq] at hwyr
      subst hwyr
      exact hw w hwmem dd hdte
  have hmy : ∀ y ∈ maturityYears its, d.year ≤ y := by
    intro y hy
    obtain ⟨tr, htrmem, htry⟩ := List.mem_filterMap.mp hy
    obtain ⟨j, t, _, hj⟩ :=
      initTranches_mem_source d rates ts 0 its hinit tr htrmem
    cases hdte : tr.maturityDate with
    | none => rw [hdte] at htry; simp at htry
    | some md =>
      rw [hdte] at htry
      simp only [Option.map_some', Option.some.injEq] at htry
      subst htry
      exact initTranche_maturity_ge d rates j t tr hj md hdte
  have hmin : minYearOf d.year ws its = d.year := minYearOf_eq_start _ _ _ hwy hmy
  have hmax : d.year ≤ maxYearOf d.year ws its := startYear_le_maxYearOf _ _ _
  obtain ⟨f1, f2, f3, f4, f5, f6, f7⟩ := input
  simp only at h1 h2 h3 h4 h5 h6
  subst h1 h2 h3 h4 h5 h6
  simp only [calculateProjections, hinit]
  refine ⟨_, rfl, ?_⟩
  rw [← List.head?_map, runYears_years, hmin]
  exact yearRangeOf_head _ _ hmax

/-- C3 counterexample: a withdrawal dated 2020 against a portfolio starting
in 2024 makes the first simulated year 2020, not the start year. -/
theorem C3_counterexample :
    inputC3.investmentStartDate = some { year := 2024, month := 0 } ∧
    ((calculateProjections 0 inputC3).toOption.map
        (fun r => r.projectionYears.head?.map (fun y => y.year))) =
      some (some 2020) ∧
    (2020 : Int) ≠ 2024 := by
  refine ⟨rfl, by with_unfolding_all rfl, by decide⟩

/-- C3 witness: the amended statement on a run whose only withdrawal is
dated after the start year. -/
theorem C3_witness :
    ∃ res, calculateProjections 0 inputC3w = Except.ok res ∧
      res.projectionYears.head?.map (fun r => r.year) = some 2024 :=
  C3_first_year 0 inputC3w { year := 2024, month := 0 } 0 0 []
    [{ date := some { year := 2025, month := 2 }, amount := some 10 }] ratesZero []
    rfl rfl rfl rfl rfl rfl rfl
    (by
      intro w hwmem dd hdd
      simp only [List.mem_singleton] at hwmem
      subst hwmem
      injection hdd with hdd
      subst hdd
      decide)

/-! Section: Non-negativity of the liquid balance -/

theorem matureStep_inv (ctx : SimCtx) (sIn : ℚ) (year : Int) (acc : MaturityAcc)
    (cd : Tranche) (hacc : MaturityAccInv acc) (hcd : hysaSafeTranche cd) :
    MaturityAccInv (matureStep ctx sIn year acc cd) := by
  obtain ⟨h1, h2, h3⟩ := hacc
  have hrem : ∀ t ∈ acc.remaining ++ [cd], hysaSafeTranche t := by
    intro t ht
    rcases List.mem_append.mp ht with h | h
    · exact h2 t h
    · rw [List.mem_singleton.mp h]; exact hcd
  unfold matureStep
  repeat' split
  all_goals first
    | exact ⟨h1, h2, h3⟩
    | exact ⟨h1, hrem, h3⟩
    | exact ⟨add_nonneg h1 (hcd (by assumption)), h2, h3⟩
    | (refine ⟨h1, h2, ?_⟩
       intro t ht
       rcases List.mem_append.mp ht with h | h
       · exact h3 t h
       · rw [List.mem_singleton.mp h]
         intro hco
         simp at hco)

theorem processMaturities_inv (ctx : SimCtx) (sIn : ℚ) (c0 : Nat) (year : Int)
    (cds : List Tranche) (hcds : ∀ t ∈ cds, hysaSafeTranche t) :
    MaturityAccInv (processMaturities ctx sIn c0 year cds) := by
  unfold processMaturities
  have hgen : ∀ (l : List Tranche) (acc : MaturityAcc), MaturityAccInv acc →
      (∀ t ∈ l, hysaSafeTranche t) →
      MaturityAccInv (l.foldl (matureStep ctx sIn year) acc) := by
    intro l
    induction l with
    | nil => intro acc hacc _; exact hacc
    | cons cd l ih =>
      intro acc hacc hall
      rw [List.foldl_cons]
      exact ih _ (matureStep_inv ctx sIn year acc cd hacc
          (hall cd (List.mem_cons_self _ _)))
        (fun t ht => hall t (List.mem_cons_of_mem _ ht))
  exact hgen cds _
    ⟨le_refl 0, fun t ht => absurd ht (List.not_mem_nil t),
      fun t ht => absurd ht (List.not_mem_nil t)⟩ hcds

theorem hysaDraw_nonneg (s bal : ℚ) (h : 0 ≤ bal) :
    0 ≤ bal - (if 0 < s ∧ 0 < bal then jsMin s bal else 0) := by
  split
  · have := jsMin_le_right s bal
    linarith
  · simpa using h

theorem processYear_hysa (ctx : SimCtx) (st : SimState) (year : Int)
    (hst : HysaInv st) :
    HysaInv (processYear ctx st year).1 ∧
      0 ≤ ((processYear ctx st year).2).endOfYearHysaBalance := by
  obtain ⟨hbal, hsafe⟩ := hst
  obtain ⟨hmv, hmrem, hmnew⟩ := processMaturities_inv ctx st.cumulativeShortfall
    st.reinvestCounter year st.activeCdTranches hsafe
  have hbal1 : 0 ≤ st.currentHysaBalance +
      (processMaturities ctx st.cumulativeShortfall st.reinvestCounter year
        st.activeCdTranches).hysaValueReinvested := add_nonneg hbal hmv
  simp only [processYear]
  refine ⟨⟨?_, ?_⟩, ?_⟩
  · exact hysaDraw_nonneg _ _ hbal1
  · intro t ht
    rcases List.mem_append.mp ht with h | h
    · exact hmrem t h
    · exact hmnew t h
  · exact hysaDraw_nonneg _ _ hbal1

theorem runYears_hysa_nonneg (ctx : SimCtx) :
    ∀ (ys : List Int) (st : SimState), HysaInv st →
      ∀ r ∈ (runYears ctx st ys).2, 0 ≤ r.endOfYearHysaBalance := by
  intro ys
  induction ys with
  | nil => intro st _ r hr; simp [runYears] at hr
  | cons y ys ih =>
    intro st hst r hr
    simp only [runYears] at hr
    rcases List.mem_cons.mp hr with rfl | htl
    · exact (processYear_hysa ctx st y hst).2
    · exact ih _ (processYear_hysa ctx st y hst).1 r htl

theorem initTranche_nonneg (parsedStart : JDate)
    (rates : List (String × RateInfo)) (i : Nat) (t : TrancheRow) (tr : Tranche)
    (hamt : 0 ≤ t.amount.getD 0)
    (hapy : ∀ p ∈ rates, ∀ a : ℚ, p.2.apy = some a → (-100 : ℚ) ≤ a)
    (h : initTranche parsedStart rates i t = Except.ok tr) :
    0 ≤ tr.amount ∧ 0 ≤ tr.valueAtMaturity := by
  unfold initTranche at h
  cases hl : lookupRate rates t.term with
  | none => simp only [hl] at h; exact Except.noConfusion h
  | some ri =>
    cases ha : ri.apy with
    | none => simp only [hl, ha] at h; exact Except.noConfusion h
    | some a =>
      have hbound : (-100 : ℚ) ≤ a := by
        obtain ⟨p, hp, hpe⟩ := lookupRate_mem rates t.term ri hl
        exact hapy p hp a (by rw [hpe, ha])
      simp only [hl, ha] at h
      by_cases ht : t.term = "HYSA"
      · rw [if_pos ht] at h
        injection h with h
        subst h
        exact ⟨hamt, hamt⟩
      · rw [if_neg ht] at h
        cases hd : ri.duration with
        | none => simp only [hd] at h; exact Except.noConfusion h
        | some q =>
          simp only [hd] at h
          by_cases hq : q ≤ 0
          · rw [if_pos hq] at h
            exact Except.noConfusion h
          · rw [if_neg hq] at h
            injection h with h
            subst h
            refine ⟨hamt, ?_⟩
            apply mul_nonneg hamt
            apply mathPow_nonneg
            linarith

set_option maxRecDepth 4000 in
/-- C10 (amended): given non-negative initial allocation amounts and a rate
table whose APYs are all at least −100% (so no deposit can have a negative
value at maturity), every emitted record's end-of-year liquid balance is
non-negative: inbound reinvestment only adds non-negative value, and the
shortfall draw is capped at the current balance. -/
theorem C10_hysa_nonneg (c : Nat) (input : ProjectionInput) (d : JDate)
    (L T : ℚ) (ts : List TrancheRow) (ws : List Withdrawal)
    (rates : List (String × RateInfo)) (res : ProjectionResult)
    (h1 : input.investmentStartDate = some d) (h2 : input.lumpSum = some L)
    (h3 : input.taxRate = some T) (h4 : input.tranches = some ts)
    (h5 : input.withdrawals = some ws) (h6 : input.interestRates = some rates)
    (hamt : ∀ row ∈ ts, 0 ≤ row.amount.getD 0)
    (hapy : ∀ p ∈ rates, ∀ a : ℚ, p.2.apy = some a → (-100 : ℚ) ≤ a)
    (hok : calculateProjections c input = Except.ok res) :
    ∀ r ∈ res.projectionYears, 0 ≤ r.endOfYearHysaBalance := by
  obtain ⟨f1, f2, f3, f4, f5, f6, f7⟩ := input
  simp only at h1 h2 h3 h4 h5 h6
  subst h1 h2 h3 h4 h5 h6
  simp only [calculateProjections] at hok
  cases hi : initTranches d rates 0 ts with
  | error e => rw [hi] at hok; simp at hok
  | ok l =>
    simp only [hi] at hok
    injection hok with hok
    subst hok
    intro r hr
    have hnn : ∀ tr ∈ l, 0 ≤ tr.amount ∧ 0 ≤ tr.valueAtMaturity := by
      intro tr htr
      obtain ⟨j, t, htm, hj⟩ := initTranches_mem_source d rates ts 0 l hi tr htr
      exact initTranche_nonneg d rates j t tr (hamt t htm) hapy hj
    refine runYears_hysa_nonneg _ _ _ ⟨?_, ?_⟩ r hr
    · apply foldl_add_nonneg _ _ (le_refl 0)
      intro x hx
      obtain ⟨tr, htr, hxe⟩ := List.mem_map.mp hx
      rw [← hxe]
      exact (hnn tr (List.mem_of_mem_filter htr)).1
    · intro t ht _
      exact (hnn t (List.mem_of_mem_filter ht)).2

/-- C10 counterexample: with non-negative allocation amounts (100 and 100)
but a −300% APY on the 12-month term, the CD electing `hysa` contributes
−200 at maturity, driving the reported end-of-year liquid balance to −100
from 2025 onward. -/
theorem C10_counterexample :
    ((inputC10.tranches.getD []).map (fun t => t.amount.getD 0)) = [100, 100] ∧
    ((calculateProjections 0 inputC10).toOption.map
        (fun r => r.projectionYears.map (fun y => (y.year, y.endOfYearHysaBalance)))) =
      some [(2024, 100), (2025, -100), (2026, -100), (2027, -100), (2028, -100),
        (2029, -100), (2030, -100)] ∧
    ¬ (0 : ℚ) ≤ (-100 : ℚ) := by
  refine ⟨by with_unfolding_all rfl, by with_unfolding_all rfl, by norm_num⟩

set_option maxRecDepth 100000 in
/-- C10 witness: the amended statement on a well-behaved concrete run. -/
theorem C10_witness : 0 ≤ recC10w.endOfYearHysaBalance :=
  C10_hysa_nonneg 0 inputC10w { year := 2024, month := 0 } 200 0 _ _ _ resC10w
    rfl rfl rfl rfl rfl rfl
    (of_decide_eq_true (by with_unfolding_all rfl))
    (by
      intro p hp a ha
      simp only [ratesC10w, List.mem_cons, List.not_mem_nil, or_false] at hp
      rcases hp with rfl | rfl <;>
        (injection ha with ha; subst ha; norm_num))
    (by with_unfolding_all rfl)
    recC10w (of_decide_eq_true (by with_unfolding_all rfl))

end ProjectionLogic
